import Mathlib

set_option maxRecDepth 8192

/-!
Verification development for the Notebook-Agent repository (src/agent.py).

The file shallowly embeds the components the specification describes:

* `PDFProcessor.extract_text_from_pdf` / `PDFProcessor._ocr_pdf`
  (text extraction with OCR fallback),
* `AIClient.submit_prompt` (context-document preamble assembly),
* the three workflows of `QuestionCategorizationAgent`
  (`process_question_papers`, `process_single_prompt`,
  `process_feeding_refinedmax`) over an explicit filesystem state and an
  abstract generation gateway.

Python strings are modelled as Lean `String`; the Python helpers
`str.strip`, `str.lower`, `str.endswith`, `str.split` and
`os.path.basename` are re-implemented character by character below so
that every definition is executable and decidable.
-/

/-- Python `str.strip()` whitespace test, restricted to the ASCII
whitespace characters (space, tab, newline, carriage return, vertical
tab, form feed). -/
def isPySpace (c : Char) : Bool :=
  c = ' ' || c = '\t' || c = '\n' || c = '\r' || c = Char.ofNat 11 || c = Char.ofNat 12

/-- Python `s.strip()`: drop whitespace from both ends. -/
def pyStrip (s : String) : String :=
  String.mk (((s.data.dropWhile isPySpace).reverse.dropWhile isPySpace).reverse)

/-- ASCII lower-casing of one character, as Python `str.lower` does on
ASCII input. -/
def lowerChar (c : Char) : Char :=
  if 65 ≤ c.toNat ∧ c.toNat ≤ 90 then Char.ofNat (c.toNat + 32) else c

/-- Python `s.lower()` on ASCII strings. -/
def lowerStr (s : String) : String :=
  String.mk (s.data.map lowerChar)

/-- Python `s.endswith(suf)`. -/
def pyEndsWith (s suf : String) : Bool :=
  suf.data.isSuffixOf s.data

/-- Helper for `splitChar`: accumulates the current segment (reversed). -/
def splitCharAux (c : Char) : List Char → List Char → List String
  | [], acc => [String.mk acc.reverse]
  | x :: xs, acc =>
    if x = c then String.mk acc.reverse :: splitCharAux c xs []
    else splitCharAux c xs (x :: acc)

/-- Python `s.split(c)` for a single-character separator: always returns
at least one segment, empty segments included. -/
def splitChar (c : Char) (s : String) : List String :=
  splitCharAux c s.data []

/-- Python `os.path.basename` on a slash-separated path. -/
def basename (p : String) : String :=
  (splitChar '/' p).getLastD ""

/-- Path concatenation, standing in for `os.path.join` and `Path` `/`
on slash-separated paths. -/
def joinPath (d f : String) : String :=
  d ++ "/" ++ f

/-- Python `sep.join(xs)`. -/
def joinSep (sep : String) : List String → String
  | [] => ""
  | [x] => x
  | x :: y :: xs => x ++ sep ++ joinSep sep (y :: xs)

/-!
## PDF extraction (`PDFProcessor`, src/agent.py lines 61-100)

A PDF document is modelled by what the two external libraries can
deliver for it:

* `direct`: the list of per-page `page.extract_text()` results produced
  by `PyPDF2.PdfReader`, or `none` when opening the file, constructing
  the reader, or extracting some page raises an exception;
* `ocr`: the list of per-page `pytesseract.image_to_string` results on
  the `pdf2image.convert_from_path` rasterization, or `none` when
  rasterization or recognition raises an exception.
-/

/-- A PDF document as seen through the two extraction libraries. -/
structure Pdf where
  direct : Option (List String)
  ocr : Option (List String)
deriving DecidableEq

/-- The concatenation loop of `extract_text_from_pdf` (lines 74-78):
every page whose text strips to something non-empty contributes
`page_text + "\n\n"`. -/
def directConcat (pages : List String) : String :=
  pages.foldl (fun text pt => if pyStrip pt = "" then text else text ++ pt ++ "\n\n") ""

/-- The accumulation loop of `_ocr_pdf` (lines 96-98), starting at page
index `i` (zero-based; the printed page number is `i+1`). -/
def ocrTextFrom : Nat → List String → String
  | _, [] => ""
  | i, pt :: rest =>
    "--- Page " ++ Nat.repr (i + 1) ++ " ---\n" ++ pt ++ "\n\n" ++ ocrTextFrom (i + 1) rest

/-- `_ocr_pdf` (lines 91-100): every page gets a `--- Page N ---` header,
N starting at 1, in page order. -/
def ocrText (pages : List String) : String :=
  ocrTextFrom 0 pages

/-- Outcome of running the `try:` block of `extract_text_from_pdf`
(lines 70-85).  `value = some t` means the block returned `t`;
`value = none` means some statement in the block raised an exception.
`ocrInvoked` records whether `_ocr_pdf` was called. -/
structure ExtractRun where
  value : Option String
  ocrInvoked : Bool
deriving DecidableEq

/-- The `try:` block of `extract_text_from_pdf` (lines 70-85): direct
extraction first; if its stripped concatenation exceeds 100 characters
it is returned as is; otherwise `_ocr_pdf` runs.  Note that the call to
`_ocr_pdf` on line 85 is itself inside the `try:` block. -/
def extractBodyRun (p : Pdf) : ExtractRun :=
  match p.direct with
  | none => ⟨none, false⟩
  | some pages =>
    let text := directConcat pages
    if 100 < (pyStrip text).length then ⟨some text, false⟩
    else
      match p.ocr with
      | none => ⟨none, true⟩
      | some opages => ⟨some (ocrText opages), true⟩

/-- `extract_text_from_pdf` (lines 68-89): the whole body is wrapped in
one `try/except` whose handler returns the empty string. -/
def extract_text_from_pdf (p : Pdf) : String :=
  ((extractBodyRun p).value).getD ""

/-!
## Language-model gateway (`AIClient`, src/agent.py lines 22-58)
-/

/-- A context document `{"name": ..., "content": ...}` as the workflows
build them. -/
structure Doc where
  name : String
  content : String
deriving DecidableEq

/-- The result dictionary returned by the generation gateway, reduced to
its `text` field; `none` models a result whose `text` field is absent.
Workflows consume it with `.get("text", "")`. -/
abbrev GenResult := Option String

/-- Python `result.get("text", "")`. -/
def getText (r : GenResult) : String :=
  r.getD ""

/-- The context string of `submit_prompt` (lines 37-40): each document
framed as `Source: {name}` newline `{content}`, joined by blank lines,
in input order. -/
def formatContext (docs : List Doc) : String :=
  joinSep "\n\n" (docs.map fun d => "Source: " ++ d.name ++ "\n" ++ d.content)

/-- The system message content of `submit_prompt` (lines 43-50). -/
def systemMessageContent (docs : List Doc) : String :=
  "You are an expert at analyzing and categorizing educational content. " ++
  "Below is information from various documents that you should use to complete the task:\n\n" ++
  formatContext docs ++
  "\n\nBased on the above information, please respond to the user's prompt."

/-- `submit_prompt` (lines 34-58), parametrized by the model invocation
`invoke system human`: it always returns a dictionary whose `text` field
holds the response content. -/
def submit_prompt (invoke : String → String → String) (prompt : String) (docs : List Doc) :
    GenResult :=
  some (invoke (systemMessageContent docs) prompt)

/-!
## Filesystem state and call traces

The workflows read prompt files, write the refined prompt and the output
file, call the extractor and call the gateway.  A `Trace` carries the
filesystem (most recent write first) together with the chronological
lists of generation calls and extraction calls made so far.
-/

/-- A filesystem: association list from path to content, most recent
write first. -/
abbrev FS := List (String × String)

/-- Read a file: the most recently written content at the path, `none`
when the path does not exist (Python `open` raising
`FileNotFoundError`, `Path.exists()` returning `False`). -/
def fsRead (fs : FS) (p : String) : Option String :=
  match fs with
  | [] => none
  | (q, c) :: rest => if q = p then some c else fsRead rest p

/-- Write a file, overwriting any previous content at the path. -/
def fsWrite (fs : FS) (p c : String) : FS :=
  (p, c) :: fs

/-- The observable state threaded through a workflow run. -/
structure Trace where
  fs : FS
  genCalls : List (String × List Doc)
  extractCalls : List String
deriving DecidableEq

/-- Record one gateway call (`self.ai_client.submit_prompt`). -/
def recordGen (st : Trace) (p : String) (docs : List Doc) : Trace :=
  { st with genCalls := st.genCalls ++ [(p, docs)] }

/-- Record one extractor call (`self.pdf_processor.extract_text_from_pdf`). -/
def recordExtract (st : Trace) (path : String) : Trace :=
  { st with extractCalls := st.extractCalls ++ [path] }

/-- Result of a workflow step: a value, or a raised
`FileNotFoundError` carrying the missing path. -/
inductive Loaded (α : Type) where
  | ok : α → Loaded α
  | notFound : String → Loaded α
deriving DecidableEq

/-!
## The three workflows (`QuestionCategorizationAgent`, src/agent.py lines 136-364)

The agent environment abstracts the collaborators: the gateway response
function, the PDF content reachable at each path, and the two
configured directories.
-/

/-- The collaborators of `QuestionCategorizationAgent`. -/
structure AgentEnv where
  ai : String → List Doc → GenResult
  pdfAt : String → Pdf
  promptsDir : String
  outputDir : String

/-- The filter of the paper-collection loop (line 194):
`file.lower().endswith(".pdf")`. -/
def isPdfName (f : String) : Bool :=
  pyEndsWith (lowerStr f) ".pdf"

/-- The paper-collection loop of `process_question_papers`
(lines 192-201): every listing entry ending in `.pdf` case-insensitively
is extracted (from the joined path) and wrapped in a document named by
the bare file name; other entries are skipped. -/
def collectPapers (env : AgentEnv) (papersDir : String) : Trace → List String → Trace × List Doc
  | st, [] => (st, [])
  | st, f :: rest =>
    if isPdfName f then
      let path := joinPath papersDir f
      let st1 := recordExtract st path
      let content := extract_text_from_pdf (env.pdfAt path)
      let r := collectPapers env papersDir st1 rest
      (r.1, Doc.mk f content :: r.2)
    else collectPapers env papersDir st rest

/-- Attach one loaded document in front of the rest of a
context-loading run. -/
def consDoc (d : Doc) (r : Trace × Loaded (List Doc)) : Trace × Loaded (List Doc) :=
  match r.2 with
  | .ok docs => (r.1, .ok (d :: docs))
  | .notFound p => (r.1, .notFound p)

/-- The context-file loop shared by `process_single_prompt`
(lines 266-279) and `process_feeding_refinedmax` (lines 326-339): a path
ending in `.pdf` case-insensitively goes through the extractor,
any other path is opened and read (raising when missing); the document
name is the base name of the path. -/
def loadContextDocs (env : AgentEnv) : Trace → List String → Trace × Loaded (List Doc)
  | st, [] => (st, .ok [])
  | st, fp :: rest =>
    if isPdfName fp then
      let st1 := recordExtract st fp
      let content := extract_text_from_pdf (env.pdfAt fp)
      consDoc (Doc.mk (basename fp) content) (loadContextDocs env st1 rest)
    else
      match fsRead st.fs fp with
      | none => (st, .notFound fp)
      | some content =>
        consDoc (Doc.mk (basename fp) content) (loadContextDocs env st rest)

/-- `process_question_papers` (lines 174-248), the "full" workflow. -/
def process_question_papers (env : AgentEnv) (st0 : Trace)
    (papersDir syllabusPath subject : String) (listing : List String) :
    Trace × Loaded String :=
  -- Step 1: extract text from syllabus
  let st1 := recordExtract st0 syllabusPath
  let syllabusText := extract_text_from_pdf (env.pdfAt syllabusPath)
  -- Step 2: extract text from all question papers
  let pr := collectPapers env papersDir st1 listing
  -- Step 3: submit to the AI model using the general prompt
  match fsRead pr.1.fs (joinPath env.promptsDir "general-prompt.md") with
  | none => (pr.1, .notFound (joinPath env.promptsDir "general-prompt.md"))
  | some generalPrompt =>
    let contextDocuments := Doc.mk "syllabus.pdf" syllabusText :: pr.2
    let generalResult := env.ai generalPrompt contextDocuments
    let st3 := recordGen pr.1 generalPrompt contextDocuments
    -- Step 4: create the refined prompt using the meta-prompt
    match fsRead st3.fs (joinPath env.promptsDir "prompt-for-prompt.md") with
    | none => (st3, .notFound (joinPath env.promptsDir "prompt-for-prompt.md"))
    | some metaPrompt =>
      let metaContext :=
        [Doc.mk "syllabus.md" syllabusText, Doc.mk "output.md" (getText generalResult)]
      let refinedResult := env.ai metaPrompt metaContext
      let st4 := recordGen st3 metaPrompt metaContext
      -- Step 5: save the refined prompt
      let refinedPath := joinPath env.promptsDir (lowerStr subject ++ "-refinedmax.md")
      let st5 := { st4 with fs := fsWrite st4.fs refinedPath (getText refinedResult) }
      -- Step 6: load the refined prompt back from the file and run it
      match fsRead st5.fs refinedPath with
      | none => (st5, .notFound refinedPath)
      | some refinedPrompt =>
        let finalResult := env.ai refinedPrompt contextDocuments
        let st6 := recordGen st5 refinedPrompt contextDocuments
        -- Step 7: save the final output
        let outputPath := joinPath env.outputDir (subject ++ "_categorized_questions.md")
        let st7 := { st6 with fs := fsWrite st6.fs outputPath (getText finalResult) }
        (st7, .ok outputPath)

/-- The output file name of `process_single_prompt` (line 289):
`result_` + the base name truncated at its first dot + `.md`. -/
def singleOutputName (promptFile : String) : String :=
  "result_" ++ (splitChar '.' (basename promptFile)).headD "" ++ ".md"

/-- `process_single_prompt` (lines 250-296), the "single" workflow. -/
def process_single_prompt (env : AgentEnv) (st0 : Trace)
    (promptFile : String) (contextFiles : List String) :
    Trace × Loaded String :=
  match fsRead st0.fs promptFile with
  | none => (st0, .notFound promptFile)
  | some prompt =>
    match loadContextDocs env st0 contextFiles with
    | (st1, .notFound p) => (st1, .notFound p)
    | (st1, .ok contextDocuments) =>
      let result := env.ai prompt contextDocuments
      let st2 := recordGen st1 prompt contextDocuments
      let outputPath := joinPath env.outputDir (singleOutputName promptFile)
      let st3 := { st2 with fs := fsWrite st2.fs outputPath (getText result) }
      (st3, .ok outputPath)

/-- `process_feeding_refinedmax` (lines 298-364), the "feeding"
workflow.  The existence check on the refined prompt file is the first
operation of the body. -/
def process_feeding_refinedmax (env : AgentEnv) (st0 : Trace)
    (subject syllabusPath : String) (contextFiles : List String) :
    Trace × Loaded String :=
  let refinedPromptPath := joinPath env.promptsDir (lowerStr subject ++ "-refinedmax.md")
  if (fsRead st0.fs refinedPromptPath).isSome then
    -- process the syllabus (PDF through the extractor, otherwise a file read)
    let syl : Trace × Loaded String :=
      if isPdfName syllabusPath then
        (recordExtract st0 syllabusPath, .ok (extract_text_from_pdf (env.pdfAt syllabusPath)))
      else
        match fsRead st0.fs syllabusPath with
        | none => (st0, .notFound syllabusPath)
        | some t => (st0, .ok t)
    match syl with
    | (st1, .notFound p) => (st1, .notFound p)
    | (st1, .ok syllabusText) =>
      match loadContextDocs env st1 contextFiles with
      | (st2, .notFound p) => (st2, .notFound p)
      | (st2, .ok ctxDocs) =>
        let contextDocuments := Doc.mk "syllabus.md" syllabusText :: ctxDocs
        match fsRead st2.fs (joinPath env.promptsDir "feeding-refinedmax-prompt.md") with
        | none => (st2, .notFound (joinPath env.promptsDir "feeding-refinedmax-prompt.md"))
        | some feedingInstruction =>
          match fsRead st2.fs refinedPromptPath with
          | none => (st2, .notFound refinedPromptPath)
          | some refinedPrompt =>
            let combinedPrompt := feedingInstruction ++ "\n\n" ++ refinedPrompt
            let result := env.ai combinedPrompt contextDocuments
            let st3 := recordGen st2 combinedPrompt contextDocuments
            let outputPath := joinPath env.outputDir (subject ++ "_categorized_questions.md")
            let st4 := { st3 with fs := fsWrite st3.fs outputPath (getText result) }
            (st4, .ok outputPath)
  else (st0, .notFound refinedPromptPath)

/-!
## Helper lemmas
-/

/-- Concatenation of a list of strings, in order. -/
def strConcat : List String → String
  | [] => ""
  | s :: rest => s ++ strConcat rest

/-- The OCR loop starting at index `k` produces, for each enumerated
page, the header numbered with its index plus one. -/
theorem ocrTextFrom_enumFrom :
    ∀ (pages : List String) (k : Nat),
      ocrTextFrom k pages =
        strConcat ((pages.enumFrom k).map fun it =>
          "--- Page " ++ Nat.repr (it.1 + 1) ++ " ---\n" ++ it.2 ++ "\n\n")
  | [], _ => rfl
  | pt :: rest, k => by
    simp [ocrTextFrom, List.enumFrom, strConcat, ocrTextFrom_enumFrom rest (k + 1),
      String.append_assoc]

@[simp] theorem fs_recordGen (st : Trace) (p : String) (docs : List Doc) :
    (recordGen st p docs).fs = st.fs := rfl

@[simp] theorem fs_recordExtract (st : Trace) (path : String) :
    (recordExtract st path).fs = st.fs := rfl

@[simp] theorem genCalls_recordExtract (st : Trace) (path : String) :
    (recordExtract st path).genCalls = st.genCalls := rfl

@[simp] theorem fsRead_fsWrite_self (fs : FS) (p c : String) :
    fsRead (fsWrite fs p c) p = some c := by
  simp [fsRead, fsWrite]

theorem consDoc_fst (d : Doc) (r : Trace × Loaded (List Doc)) :
    (consDoc d r).1 = r.1 := by
  rcases r with ⟨tr, res⟩
  cases res <;> rfl

/-- The paper-collection loop never touches the filesystem. -/
theorem collectPapers_fs (env : AgentEnv) (papersDir : String) :
    ∀ (l : List String) (st : Trace), (collectPapers env papersDir st l).1.fs = st.fs
  | [], _ => rfl
  | f :: rest, st => by
    cases h : isPdfName f <;>
      simp [collectPapers, h, collectPapers_fs env papersDir rest]

/-- The paper-collection loop makes no generation calls. -/
theorem collectPapers_genCalls (env : AgentEnv) (papersDir : String) :
    ∀ (l : List String) (st : Trace),
      (collectPapers env papersDir st l).1.genCalls = st.genCalls
  | [], _ => rfl
  | f :: rest, st => by
    cases h : isPdfName f <;>
      simp [collectPapers, h, collectPapers_genCalls env papersDir rest]

/-- The documents collected by the paper loop: exactly the listing
entries whose name ends in `.pdf` case-insensitively, in listing order,
each extracted from the joined path. -/
theorem collectPapers_docs (env : AgentEnv) (papersDir : String) :
    ∀ (l : List String) (st : Trace),
      (collectPapers env papersDir st l).2 =
        (l.filter fun f => isPdfName f).map
          (fun f => Doc.mk f (extract_text_from_pdf (env.pdfAt (joinPath papersDir f))))
  | [], _ => rfl
  | f :: rest, st => by
    cases h : isPdfName f <;>
      simp [collectPapers, h, collectPapers_docs env papersDir rest]

/-- The context-file loop never touches the filesystem. -/
theorem loadContextDocs_fs (env : AgentEnv) :
    ∀ (l : List String) (st : Trace), (loadContextDocs env st l).1.fs = st.fs
  | [], _ => rfl
  | fp :: rest, st => by
    cases h : isPdfName fp
    · cases hr : fsRead st.fs fp <;>
        simp [loadContextDocs, h, hr, consDoc_fst, loadContextDocs_fs env rest]
    · simp [loadContextDocs, h, consDoc_fst, loadContextDocs_fs env rest]

/-!
## Claims about the extractor
-/

/-- Claim C1: when direct extraction succeeds, the extractor returns the
concatenated page text with no OCR call exactly when the stripped
concatenation is strictly longer than 100 characters, and invokes the
OCR fallback whenever it is at most 100 characters long. -/
theorem extract_direct_threshold (p : Pdf) (pages : List String)
    (hd : p.direct = some pages) :
    (100 < (pyStrip (directConcat pages)).length →
      extract_text_from_pdf p = directConcat pages ∧
      (extractBodyRun p).ocrInvoked = false) ∧
    ((pyStrip (directConcat pages)).length ≤ 100 →
      (extractBodyRun p).ocrInvoked = true) := by
  have hrun : extractBodyRun p =
      (if 100 < (pyStrip (directConcat pages)).length then
        ⟨some (directConcat pages), false⟩
      else
        match p.ocr with
        | none => ⟨none, true⟩
        | some opages => ⟨some (ocrText opages), true⟩) := by
    simp [extractBodyRun, hd]
  constructor
  · intro h
    rw [extract_text_from_pdf, hrun, if_pos h]
    exact ⟨rfl, rfl⟩
  · intro h
    rw [hrun, if_neg (not_lt.mpr h)]
    cases p.ocr <;> rfl

/-- Witness for C1: a single direct page of 101 non-whitespace
characters is returned as extracted (with its trailing separator) and
OCR is never invoked. -/
theorem extract_direct_threshold_witness :
    extract_text_from_pdf
        (Pdf.mk (some [String.mk (List.replicate 101 'a')]) (some ["o"])) =
      directConcat [String.mk (List.replicate 101 'a')] ∧
    (extractBodyRun
        (Pdf.mk (some [String.mk (List.replicate 101 'a')]) (some ["o"]))).ocrInvoked =
      false :=
  (extract_direct_threshold
    (Pdf.mk (some [String.mk (List.replicate 101 'a')]) (some ["o"]))
    [String.mk (List.replicate 101 'a')] rfl).1 (by decide)

/-- Claim C2 counterexample: a document whose direct layer yields one
short page and whose OCR pass raises.  The OCR fallback is invoked, the
try-block body raises there (`value = none`), and yet
`extract_text_from_pdf` returns the empty string instead of letting the
exception propagate: the handler on line 87 of src/agent.py also covers
the `_ocr_pdf` call on line 85, which sits inside the `try:` block. -/
theorem ocr_error_not_propagated_cex :
    (extractBodyRun (Pdf.mk (some ["x"]) none)).ocrInvoked = true ∧
    (extractBodyRun (Pdf.mk (some ["x"]) none)).value = none ∧
    extract_text_from_pdf (Pdf.mk (some ["x"]) none) = "" := by
  decide

/-- Claim C2 as amended: the single error handler of
`extract_text_from_pdf` wraps the whole body, the OCR fallback included,
so an exception raised during rasterization or recognition is also
caught and converted to an empty-string return. -/
theorem ocr_error_caught (p : Pdf) (pages : List String)
    (hd : p.direct = some pages)
    (hshort : (pyStrip (directConcat pages)).length ≤ 100)
    (hocr : p.ocr = none) :
    (extractBodyRun p).ocrInvoked = true ∧ extract_text_from_pdf p = "" := by
  have hrun : extractBodyRun p = ⟨none, true⟩ := by
    simp [extractBodyRun, hd, hocr, if_neg (not_lt.mpr hshort)]
  rw [extract_text_from_pdf, hrun]
  exact ⟨rfl, rfl⟩

/-- Witness for the amended C2. -/
theorem ocr_error_caught_witness :
    (extractBodyRun (Pdf.mk (some ["hi"]) none)).ocrInvoked = true ∧
    extract_text_from_pdf (Pdf.mk (some ["hi"]) none) = "" :=
  ocr_error_caught (Pdf.mk (some ["hi"]) none) ["hi"] rfl (by decide) rfl

/-- Claim C3 counterexample: a document whose direct extraction raises
while its OCR layer would deliver the page "PAGE".  The extractor
returns the empty string at once, without invoking OCR, so it does not
produce the per-page header output the claim promises. -/
theorem direct_error_no_ocr_cex :
    extract_text_from_pdf (Pdf.mk none (some ["PAGE"])) = "" ∧
    (extractBodyRun (Pdf.mk none (some ["PAGE"]))).ocrInvoked = false ∧
    ocrText ["PAGE"] = "--- Page 1 ---\nPAGE\n\n" ∧
    ("" : String) ≠ "--- Page 1 ---\nPAGE\n\n" := by
  decide

/-- Claim C3 as amended: a direct-extraction error is caught and yields
the empty-string return immediately, with the OCR fallback never
invoked; the OCR output with one `--- Page N ---` header per page, N
starting at 1 in page order, is produced exactly on the path where
direct extraction succeeds with at most 100 stripped characters and the
OCR pass itself succeeds. -/
theorem direct_error_returns_empty (p : Pdf) :
    (p.direct = none →
      extract_text_from_pdf p = "" ∧ (extractBodyRun p).ocrInvoked = false) ∧
    (∀ pages opages, p.direct = some pages →
      (pyStrip (directConcat pages)).length ≤ 100 → p.ocr = some opages →
      extract_text_from_pdf p = ocrText opages ∧
      ocrText opages =
        strConcat (opages.enum.map fun it =>
          "--- Page " ++ Nat.repr (it.1 + 1) ++ " ---\n" ++ it.2 ++ "\n\n")) := by
  constructor
  · intro h
    have hrun : extractBodyRun p = ⟨none, false⟩ := by simp [extractBodyRun, h]
    rw [extract_text_from_pdf, hrun]
    exact ⟨rfl, rfl⟩
  · intro pages opages hd hshort hocr
    have hrun : extractBodyRun p = ⟨some (ocrText opages), true⟩ := by
      simp [extractBodyRun, hd, hocr, if_neg (not_lt.mpr hshort)]
    rw [extract_text_from_pdf, hrun]
    exact ⟨rfl, by rw [ocrText, ocrTextFrom_enumFrom opages 0, List.enum]⟩

/-- Witness for the amended C3. -/
theorem direct_error_returns_empty_witness :
    extract_text_from_pdf (Pdf.mk none (some ["x"])) = "" ∧
    (extractBodyRun (Pdf.mk none (some ["x"]))).ocrInvoked = false :=
  (direct_error_returns_empty (Pdf.mk none (some ["x"]))).1 rfl

/-- Claim C9: `extract_text_from_pdf` is total with respect to
exceptions: whatever the try-block body does, the function returns a
string, and whenever the body raises anywhere inside (file opening,
direct extraction or the OCR fallback), the single enclosing handler
turns the run into an empty-string return. -/
theorem extract_never_raises (p : Pdf) :
    ((extractBodyRun p).value = none → extract_text_from_pdf p = "") ∧
    (∀ t, (extractBodyRun p).value = some t → extract_text_from_pdf p = t) := by
  constructor
  · intro h
    rw [extract_text_from_pdf, h]
    rfl
  · intro t h
    rw [extract_text_from_pdf, h]
    rfl

/-- Witness for C9. -/
theorem extract_never_raises_witness :
    extract_text_from_pdf (Pdf.mk none none) = "" :=
  (extract_never_raises (Pdf.mk none none)).1 rfl

/-!
## Claims about the gateway and the workflows
-/

/-- Claim C7: the gateway frames each context document as
`Source: {name}` newline `{content}`, joins consecutive documents with a
blank line in exactly the input order, and embeds the result in the
system message handed to the model; for the two documents `a.md`/`X`
and `b.md`/`Y` the preamble holds `Source: a.md` newline `X` before
`Source: b.md` newline `Y`, separated by a blank line. -/
theorem context_preamble_order :
    (∀ (d : Doc) (ds : List Doc), ds ≠ [] →
      formatContext (d :: ds) =
        "Source: " ++ d.name ++ "\n" ++ d.content ++ "\n\n" ++ formatContext ds) ∧
    (∀ (invoke : String → String → String) (prompt : String) (docs : List Doc),
      submit_prompt invoke prompt docs = some (invoke (systemMessageContent docs) prompt)) ∧
    systemMessageContent [Doc.mk "a.md" "X", Doc.mk "b.md" "Y"] =
      "You are an expert at analyzing and categorizing educational content. " ++
      "Below is information from various documents that you should use to complete the task:\n\n" ++
      ("Source: a.md\nX" ++ "\n\n" ++ "Source: b.md\nY") ++
      "\n\nBased on the above information, please respond to the user's prompt." := by
  refine ⟨?_, fun _ _ _ => rfl, by decide⟩
  intro d ds h
  cases ds with
  | nil => exact absurd rfl h
  | cons e es => simp [formatContext, joinSep, String.append_assoc]

/-- Witness for C7. -/
theorem context_preamble_order_witness :
    formatContext [Doc.mk "a.md" "X", Doc.mk "b.md" "Y"] =
      "Source: " ++ "a.md" ++ "\n" ++ "X" ++ "\n\n" ++
        formatContext [Doc.mk "b.md" "Y"] :=
  context_preamble_order.1 (Doc.mk "a.md" "X") [Doc.mk "b.md" "Y"] (by decide)

/-- Claim C6: when the refined prompt file for the subject is absent,
the feeding workflow raises NotFound for that path as its very first
action: the returned trace is the starting trace unchanged, so no
generation call, no extraction and no file write happened. -/
theorem feeding_missing_refined_aborts (env : AgentEnv) (st0 : Trace)
    (subject syllabusPath : String) (contextFiles : List String)
    (h : fsRead st0.fs (joinPath env.promptsDir (lowerStr subject ++ "-refinedmax.md")) =
      none) :
    process_feeding_refinedmax env st0 subject syllabusPath contextFiles =
      (st0, .notFound (joinPath env.promptsDir (lowerStr subject ++ "-refinedmax.md"))) := by
  simp [process_feeding_refinedmax, h]

/-- Witness for C6. -/
theorem feeding_missing_refined_aborts_witness :
    process_feeding_refinedmax
        ⟨fun p _ => some p, fun _ => Pdf.mk (some []) (some []), "p", "o"⟩
        ⟨[], [], []⟩ "Math" "s.pdf" ["c.pdf"] =
      (⟨[], [], []⟩, .notFound (joinPath "p" (lowerStr "Math" ++ "-refinedmax.md"))) :=
  feeding_missing_refined_aborts
    ⟨fun p _ => some p, fun _ => Pdf.mk (some []) (some []), "p", "o"⟩
    ⟨[], [], []⟩ "Math" "s.pdf" ["c.pdf"] (by decide)

/-- Claim C4 counterexample: a prompt file named `geo.v2.md` makes the
single workflow write to `result_geo.md`, not to `result_geo.v2.md` as
the claim predicts: `split(".")[0]` keeps only the part before the
first dot. -/
theorem single_output_name_cex :
    (process_single_prompt
        ⟨fun p _ => some p, fun _ => Pdf.mk (some []) (some []), "p", "o"⟩
        ⟨[("geo.v2.md", "P")], [], []⟩ "geo.v2.md" []).2 =
      .ok "o/result_geo.md" ∧
    singleOutputName "geo.v2.md" = "result_geo.md" ∧
    ("o/result_geo.md" : String) ≠ "o/result_geo.v2.md" := by
  decide

/-- Claim C4 as amended: the single workflow writes its result to
`result_` + the prompt file base name with everything from its first
dot onward removed, plus `.md`; so `geo.v2.md` yields `result_geo.md`.
The written content is the consumed text of the generation call. -/
theorem single_output_name_first_dot (env : AgentEnv) (st0 : Trace)
    (promptFile : String) (contextFiles : List String)
    (pf : String) (stc : Trace) (docs : List Doc)
    (hpf : fsRead st0.fs promptFile = some pf)
    (hctx : loadContextDocs env st0 contextFiles = (stc, .ok docs)) :
    (process_single_prompt env st0 promptFile contextFiles).2 =
      .ok (joinPath env.outputDir
        ("result_" ++ (splitChar '.' (basename promptFile)).headD "" ++ ".md")) ∧
    fsRead (process_single_prompt env st0 promptFile contextFiles).1.fs
        (joinPath env.outputDir
          ("result_" ++ (splitChar '.' (basename promptFile)).headD "" ++ ".md")) =
      some (getText (env.ai pf docs)) := by
  simp [process_single_prompt, hpf, hctx, singleOutputName]

/-- Witness for the amended C4. -/
theorem single_output_name_first_dot_witness :
    (process_single_prompt
        ⟨fun p _ => some p, fun _ => Pdf.mk (some []) (some []), "p", "o"⟩
        ⟨[("geo.v2.md", "P")], [], []⟩ "geo.v2.md" []).2 =
      .ok (joinPath "o"
        ("result_" ++ (splitChar '.' (basename "geo.v2.md")).headD "" ++ ".md")) ∧
    fsRead (process_single_prompt
        ⟨fun p _ => some p, fun _ => Pdf.mk (some []) (some []), "p", "o"⟩
        ⟨[("geo.v2.md", "P")], [], []⟩ "geo.v2.md" []).1.fs
        (joinPath "o"
          ("result_" ++ (splitChar '.' (basename "geo.v2.md")).headD "" ++ ".md")) =
      some (getText ((fun p _ => some p : String → List Doc → GenResult) "P" [])) :=
  single_output_name_first_dot
    ⟨fun p _ => some p, fun _ => Pdf.mk (some []) (some []), "p", "o"⟩
    ⟨[("geo.v2.md", "P")], [], []⟩ "geo.v2.md" [] "P" ⟨[("geo.v2.md", "P")], [], []⟩ []
    (by decide) (by decide)

/-- Full characterization of a successful run of the full workflow,
given that the two prompt files exist. -/
theorem process_question_papers_run (env : AgentEnv) (st0 : Trace)
    (papersDir syllabusPath subject : String) (listing : List String) (gp mp : String)
    (hgp : fsRead st0.fs (joinPath env.promptsDir "general-prompt.md") = some gp)
    (hmp : fsRead st0.fs (joinPath env.promptsDir "prompt-for-prompt.md") = some mp) :
    process_question_papers env st0 papersDir syllabusPath subject listing =
      (let syllabusText := extract_text_from_pdf (env.pdfAt syllabusPath)
       let pr := collectPapers env papersDir (recordExtract st0 syllabusPath) listing
       let ctx := Doc.mk "syllabus.pdf" syllabusText :: pr.2
       let metaCtx := [Doc.mk "syllabus.md" syllabusText,
                       Doc.mk "output.md" (getText (env.ai gp ctx))]
       let refinedText := getText (env.ai mp metaCtx)
       let refinedPath := joinPath env.promptsDir (lowerStr subject ++ "-refinedmax.md")
       let outPath := joinPath env.outputDir (subject ++ "_categorized_questions.md")
       let finalText := getText (env.ai refinedText ctx)
       (⟨fsWrite (fsWrite st0.fs refinedPath refinedText) outPath finalText,
         st0.genCalls ++ [(gp, ctx), (mp, metaCtx), (refinedText, ctx)],
         pr.1.extractCalls⟩,
        .ok outPath)) := by
  have hfs : (collectPapers env papersDir (recordExtract st0 syllabusPath) listing).1.fs =
      st0.fs := by
    rw [collectPapers_fs, fs_recordExtract]
  have hgc : (collectPapers env papersDir (recordExtract st0 syllabusPath) listing).1.genCalls =
      st0.genCalls := by
    rw [collectPapers_genCalls, genCalls_recordExtract]
  simp only [process_question_papers, recordGen, fs_recordGen, hfs, hgc, hgp, hmp,
    fsRead_fsWrite_self]
  simp [List.append_assoc]

/-- Claim C5: in the full workflow, the prompt of the third generation
call is the content read back from the refined-prompt file written
after the second call (which equals the saved text), and the final
output file holds exactly the consumed text of that third call. -/
theorem full_reads_refined_from_disk (env : AgentEnv) (st0 : Trace)
    (papersDir syllabusPath subject : String) (listing : List String) (gp mp : String)
    (hgp : fsRead st0.fs (joinPath env.promptsDir "general-prompt.md") = some gp)
    (hmp : fsRead st0.fs (joinPath env.promptsDir "prompt-for-prompt.md") = some mp) :
    let syllabusText := extract_text_from_pdf (env.pdfAt syllabusPath)
    let ctx := Doc.mk "syllabus.pdf" syllabusText ::
      (collectPapers env papersDir (recordExtract st0 syllabusPath) listing).2
    let metaCtx := [Doc.mk "syllabus.md" syllabusText,
                    Doc.mk "output.md" (getText (env.ai gp ctx))]
    let refinedPath := joinPath env.promptsDir (lowerStr subject ++ "-refinedmax.md")
    let savedText := getText (env.ai mp metaCtx)
    let rereadText := (fsRead (fsWrite st0.fs refinedPath savedText) refinedPath).getD ""
    let outPath := joinPath env.outputDir (subject ++ "_categorized_questions.md")
    (process_question_papers env st0 papersDir syllabusPath subject listing).2 =
      .ok outPath ∧
    rereadText = savedText ∧
    (process_question_papers env st0 papersDir syllabusPath subject listing).1.genCalls =
      st0.genCalls ++ [(gp, ctx), (mp, metaCtx), (rereadText, ctx)] ∧
    fsRead (process_question_papers env st0 papersDir syllabusPath subject listing).1.fs
        outPath =
      some (getText (env.ai rereadText ctx)) := by
  simp only [process_question_papers_run env st0 papersDir syllabusPath subject listing
    gp mp hgp hmp]
  simp

/-- Witness for C5. -/
theorem full_reads_refined_from_disk_witness :
    let env : AgentEnv := ⟨fun p _ => some p, fun _ => Pdf.mk (some []) (some []), "p", "o"⟩
    let st0 : Trace := ⟨[("p/general-prompt.md", "G"), ("p/prompt-for-prompt.md", "M")], [], []⟩
    let syllabusText := extract_text_from_pdf (env.pdfAt "s.pdf")
    let ctx := Doc.mk "syllabus.pdf" syllabusText ::
      (collectPapers env "d" (recordExtract st0 "s.pdf") []).2
    let metaCtx := [Doc.mk "syllabus.md" syllabusText,
                    Doc.mk "output.md" (getText (env.ai "G" ctx))]
    let refinedPath := joinPath "p" (lowerStr "Ma" ++ "-refinedmax.md")
    let savedText := getText (env.ai "M" metaCtx)
    let rereadText := (fsRead (fsWrite st0.fs refinedPath savedText) refinedPath).getD ""
    let outPath := joinPath "o" ("Ma" ++ "_categorized_questions.md")
    (process_question_papers env st0 "d" "s.pdf" "Ma" []).2 = .ok outPath ∧
    rereadText = savedText ∧
    (process_question_papers env st0 "d" "s.pdf" "Ma" []).1.genCalls =
      st0.genCalls ++ [("G", ctx), ("M", metaCtx), (rereadText, ctx)] ∧
    fsRead (process_question_papers env st0 "d" "s.pdf" "Ma" []).1.fs outPath =
      some (getText (env.ai rereadText ctx)) :=
  full_reads_refined_from_disk
    ⟨fun p _ => some p, fun _ => Pdf.mk (some []) (some []), "p", "o"⟩
    ⟨[("p/general-prompt.md", "G"), ("p/prompt-for-prompt.md", "M")], [], []⟩
    "d" "s.pdf" "Ma" [] "G" "M" (by decide) (by decide)

/-- Claim C10: in the full workflow the first and third generation calls
share one context list, the syllabus text first under the fixed name
`syllabus.pdf` followed by exactly the listing entries ending in `.pdf`
case-insensitively in listing order, and the second call context is
exactly the two documents named `syllabus.md` and `output.md`. -/
theorem full_context_documents (env : AgentEnv) (st0 : Trace)
    (papersDir syllabusPath subject : String) (listing : List String) (gp mp : String)
    (hgp : fsRead st0.fs (joinPath env.promptsDir "general-prompt.md") = some gp)
    (hmp : fsRead st0.fs (joinPath env.promptsDir "prompt-for-prompt.md") = some mp) :
    let syllabusText := extract_text_from_pdf (env.pdfAt syllabusPath)
    let papers := (listing.filter fun f => isPdfName f).map
      (fun f => Doc.mk f (extract_text_from_pdf (env.pdfAt (joinPath papersDir f))))
    let ctx := Doc.mk "syllabus.pdf" syllabusText :: papers
    let metaCtx := [Doc.mk "syllabus.md" syllabusText,
                    Doc.mk "output.md" (getText (env.ai gp ctx))]
    (process_question_papers env st0 papersDir syllabusPath subject listing).1.genCalls =
      st0.genCalls ++ [(gp, ctx), (mp, metaCtx), (getText (env.ai mp metaCtx), ctx)] := by
  simp only [process_question_papers_run env st0 papersDir syllabusPath subject listing
    gp mp hgp hmp]
  simp [collectPapers_docs]

/-- Witness for C10. -/
theorem full_context_documents_witness :
    let env : AgentEnv := ⟨fun p _ => some p, fun _ => Pdf.mk (some []) (some []), "p", "o"⟩
    let st0 : Trace := ⟨[("p/general-prompt.md", "G"), ("p/prompt-for-prompt.md", "M")], [], []⟩
    let syllabusText := extract_text_from_pdf (env.pdfAt "s.pdf")
    let papers := ((["a.pdf", "b.txt"] : List String).filter fun f => isPdfName f).map
      (fun f => Doc.mk f (extract_text_from_pdf (env.pdfAt (joinPath "d" f))))
    let ctx := Doc.mk "syllabus.pdf" syllabusText :: papers
    let metaCtx := [Doc.mk "syllabus.md" syllabusText,
                    Doc.mk "output.md" (getText (env.ai "G" ctx))]
    (process_question_papers env st0 "d" "s.pdf" "Ma" ["a.pdf", "b.txt"]).1.genCalls =
      st0.genCalls ++ [("G", ctx), ("M", metaCtx), (getText (env.ai "M" metaCtx), ctx)] :=
  full_context_documents
    ⟨fun p _ => some p, fun _ => Pdf.mk (some []) (some []), "p", "o"⟩
    ⟨[("p/general-prompt.md", "G"), ("p/prompt-for-prompt.md", "M")], [], []⟩
    "d" "s.pdf" "Ma" ["a.pdf", "b.txt"] "G" "M" (by decide) (by decide)

/-- Claim C8: when every gateway result lacks its text field, each of
the three workflows still completes without error and writes the empty
string to its output file: the missing field is consumed as the empty
string everywhere, never raised. -/
theorem absent_text_treated_as_empty (env : AgentEnv) (st0 : Trace)
    (hai : ∀ p d, env.ai p d = none)
    (papersDir syllabusPath subject : String) (listing : List String) (gp mp : String)
    (hgp : fsRead st0.fs (joinPath env.promptsDir "general-prompt.md") = some gp)
    (hmp : fsRead st0.fs (joinPath env.promptsDir "prompt-for-prompt.md") = some mp)
    (promptFile : String) (contextFiles : List String)
    (pf : String) (stc : Trace) (docs : List Doc)
    (hpf : fsRead st0.fs promptFile = some pf)
    (hctx : loadContextDocs env st0 contextFiles = (stc, .ok docs))
    (subjectF syllabusF : String) (contextFilesF : List String) (rp fi : String)
    (hsylF : isPdfName syllabusF = true)
    (hrp : fsRead st0.fs (joinPath env.promptsDir (lowerStr subjectF ++ "-refinedmax.md")) =
      some rp)
    (stf : Trace) (docsF : List Doc)
    (hctxF : loadContextDocs env (recordExtract st0 syllabusF) contextFilesF =
      (stf, .ok docsF))
    (hfi : fsRead st0.fs (joinPath env.promptsDir "feeding-refinedmax-prompt.md") = some fi) :
    ((process_question_papers env st0 papersDir syllabusPath subject listing).2 =
        .ok (joinPath env.outputDir (subject ++ "_categorized_questions.md")) ∧
      fsRead (process_question_papers env st0 papersDir syllabusPath subject listing).1.fs
          (joinPath env.outputDir (subject ++ "_categorized_questions.md")) =
        some "") ∧
    ((process_single_prompt env st0 promptFile contextFiles).2 =
        .ok (joinPath env.outputDir (singleOutputName promptFile)) ∧
      fsRead (process_single_prompt env st0 promptFile contextFiles).1.fs
          (joinPath env.outputDir (singleOutputName promptFile)) =
        some "") ∧
    ((process_feeding_refinedmax env st0 subjectF syllabusF contextFilesF).2 =
        .ok (joinPath env.outputDir (subjectF ++ "_categorized_questions.md")) ∧
      fsRead (process_feeding_refinedmax env st0 subjectF syllabusF contextFilesF).1.fs
          (joinPath env.outputDir (subjectF ++ "_categorized_questions.md")) =
        some "") := by
  have hstf : stf.fs = st0.fs := by
    have h1 := loadContextDocs_fs env contextFilesF (recordExtract st0 syllabusF)
    rw [hctxF] at h1
    simpa using h1
  refine ⟨?_, ?_, ?_⟩
  · simp only [process_question_papers_run env st0 papersDir syllabusPath subject listing
      gp mp hgp hmp]
    simp [hai, getText]
  · simp [process_single_prompt, hpf, hctx, hai, getText]
  · simp [process_feeding_refinedmax, hrp, hsylF, hctxF, hstf, hfi, hai, getText]

/-- Witness for C8. -/
theorem absent_text_treated_as_empty_witness :
    let env : AgentEnv := ⟨fun _ _ => none, fun _ => Pdf.mk (some []) (some []), "p", "o"⟩
    let st0 : Trace := ⟨[("p/general-prompt.md", "G"), ("p/prompt-for-prompt.md", "M"),
      ("pr.md", "P"), ("p/ma-refinedmax.md", "R"),
      ("p/feeding-refinedmax-prompt.md", "F")], [], []⟩
    ((process_question_papers env st0 "d" "s.pdf" "Ma" ["a.pdf"]).2 =
        .ok (joinPath "o" ("Ma" ++ "_categorized_questions.md")) ∧
      fsRead (process_question_papers env st0 "d" "s.pdf" "Ma" ["a.pdf"]).1.fs
          (joinPath "o" ("Ma" ++ "_categorized_questions.md")) =
        some "") ∧
    ((process_single_prompt env st0 "pr.md" []).2 =
        .ok (joinPath "o" (singleOutputName "pr.md")) ∧
      fsRead (process_single_prompt env st0 "pr.md" []).1.fs
          (joinPath "o" (singleOutputName "pr.md")) =
        some "") ∧
    ((process_feeding_refinedmax env st0 "Ma" "s2.pdf" []).2 =
        .ok (joinPath "o" ("Ma" ++ "_categorized_questions.md")) ∧
      fsRead (process_feeding_refinedmax env st0 "Ma" "s2.pdf" []).1.fs
          (joinPath "o" ("Ma" ++ "_categorized_questions.md")) =
        some "") :=
  absent_text_treated_as_empty
    ⟨fun _ _ => none, fun _ => Pdf.mk (some []) (some []), "p", "o"⟩
    ⟨[("p/general-prompt.md", "G"), ("p/prompt-for-prompt.md", "M"),
      ("pr.md", "P"), ("p/ma-refinedmax.md", "R"),
      ("p/feeding-refinedmax-prompt.md", "F")], [], []⟩
    (fun _ _ => rfl)
    "d" "s.pdf" "Ma" ["a.pdf"] "G" "M" (by decide) (by decide)
    "pr.md" [] "P"
    ⟨[("p/general-prompt.md", "G"), ("p/prompt-for-prompt.md", "M"),
      ("pr.md", "P"), ("p/ma-refinedmax.md", "R"),
      ("p/feeding-refinedmax-prompt.md", "F")], [], []⟩
    [] (by decide) (by decide)
    "Ma" "s2.pdf" [] "R" "F" (by decide) (by decide)
    (recordExtract
      ⟨[("p/general-prompt.md", "G"), ("p/prompt-for-prompt.md", "M"),
        ("pr.md", "P"), ("p/ma-refinedmax.md", "R"),
        ("p/feeding-refinedmax-prompt.md", "F")], [], []⟩ "s2.pdf")
    [] (by decide) (by decide)

